import Mathlib

/-!
Verification of the popcorn asynchronous device-buffer substrate.

The Rust sources are shallowly embedded: stateful operations become pure
functions from an explicit state to a new state (plus the values returned
and the work items enqueued), and fallible operations return `Except`.
Definitions follow the source files `src/vault.rs`, `src/buffer.rs`,
`popcorn-core/src/platform/cpu/work.rs`, `popcorn-core/src/platform/cpu/device.rs`
and `popcorn-blas/src/frameworks/native/core_ops/dot.rs`.
Parts of the repository that are referenced but whose sources are not
available (the native framework's memory-copy primitives, the broadcast
iterator module, `CpuMemory::new`) are modelled from the specification and
are marked as such in their doc comments.
-/

namespace Popcorn

/-! ## Association-list model of `HashMap`

`RawBuffer.copies` is a `HashMap<BufferDevice, BufferMemory>`; we model it
as an association list with `HashMap`-style lookup, remove and insert
(insert replaces any existing binding of the key). -/

/-- Lookup of a key in the association-list model of a `HashMap`. -/
def mapLookup {κ ν : Type} [DecidableEq κ] (k : κ) : List (κ × ν) → Option ν
  | [] => none
  | (k', v) :: rest => if k = k' then some v else mapLookup k rest

/-- Removal of a key, mirroring `HashMap::remove` (the map without the key). -/
def mapRemove {κ ν : Type} [DecidableEq κ] (k : κ) : List (κ × ν) → List (κ × ν)
  | [] => []
  | (k', v) :: rest => if k = k' then mapRemove k rest else (k', v) :: mapRemove k rest

/-- Insertion of a binding, mirroring `HashMap::insert` (replaces any old binding). -/
def mapInsert {κ ν : Type} [DecidableEq κ] (k : κ) (v : ν) (m : List (κ × ν)) :
    List (κ × ν) :=
  (k, v) :: mapRemove k m

theorem mapLookup_mapInsert_self {κ ν : Type} [DecidableEq κ] (k : κ) (v : ν)
    (m : List (κ × ν)) : mapLookup k (mapInsert k v m) = some v := by
  simp [mapInsert, mapLookup]

theorem mapLookup_mapRemove_self {κ ν : Type} [DecidableEq κ] (k : κ)
    (m : List (κ × ν)) : mapLookup k (mapRemove k m) = none := by
  induction m with
  | nil => rfl
  | cons hd tl ih =>
    obtain ⟨k', v⟩ := hd
    by_cases h : k = k'
    · subst h; simpa [mapRemove] using ih
    · simp [mapRemove, mapLookup, h, ih]

/-! ## Vault (`src/vault.rs`)

The vault's shared mutable state is the spin-locked `InnerLock`
(`locked : bool`, `waiting : Vec<Task>`).  To state the exclusion
property we also track how many `VaultAcquired` guards are outstanding.
The three state-changing entry points are `Vault::try_lock`,
`VaultAcquire::poll` and `Drop for VaultAcquired`; each is one label of
the step function below, translated line by line from the source. -/

/-- State of one vault: the `InnerLock` fields plus the number of live
`VaultAcquired` guards (a ghost field; in Rust guards are linear values). -/
structure VaultState where
  locked : Bool
  waiting : List Nat
  guards : Nat
  deriving Repr, DecidableEq

/-- The state-changing entry points of `src/vault.rs`:
`try_lock`, a poll of `VaultAcquire` by task `t`, and the guard drop. -/
inductive VaultOp where
  | tryLock : VaultOp
  | pollAcquire : Nat → VaultOp
  | dropGuard : VaultOp
  deriving Repr, DecidableEq

/-- Outcome observed by the caller of a vault entry point. -/
inductive VaultOut where
  | acquired : VaultOut
  | busy : VaultOut
  | notReady : VaultOut
  | released : VaultOut
  deriving Repr, DecidableEq

/-- One step of the vault, from `src/vault.rs`:
`try_lock` (lines 193–204) flips `locked` and hands out a guard when the
flag is clear, else returns `Err(())`; `VaultAcquire::poll` (lines 218–231)
does the same but parks the task on `waiting` when the flag is set;
dropping a `VaultAcquired` (lines 246–255) clears the flag and pops one
waiting task from the tail of `waiting`. -/
def vaultStep (s : VaultState) : VaultOp → VaultState × VaultOut
  | .tryLock =>
    if s.locked then (s, .busy)
    else ({ s with locked := true, guards := s.guards + 1 }, .acquired)
  | .pollAcquire t =>
    if s.locked then ({ s with waiting := s.waiting ++ [t] }, .notReady)
    else ({ s with locked := true, guards := s.guards + 1 }, .acquired)
  | .dropGuard =>
    ({ locked := false, waiting := s.waiting.dropLast, guards := s.guards - 1 },
      .released)

/-- The fresh vault of `Vault::new`: unlocked, no waiters, no guards. -/
def vaultInit : VaultState := { locked := false, waiting := [], guards := 0 }

/-- States reachable from a fresh vault by interleaving `try_lock` calls,
polls of `lock()` futures, and guard drops.  A drop step is only possible
while a guard is outstanding, because only the holder of a `VaultAcquired`
can drop it. -/
inductive VaultReach : VaultState → Prop where
  | init : VaultReach vaultInit
  | stepTry {s : VaultState} : VaultReach s → VaultReach (vaultStep s .tryLock).1
  | stepPoll {s : VaultState} (t : Nat) :
      VaultReach s → VaultReach (vaultStep s (.pollAcquire t)).1
  | stepDrop {s : VaultState} :
      VaultReach s → 0 < s.guards → VaultReach (vaultStep s .dropGuard).1

/-- Core invariant: the number of outstanding guards is 1 when the flag is
set and 0 when it is clear. -/
theorem vaultReach_guards_eq (s : VaultState) (h : VaultReach s) :
    s.guards = if s.locked then 1 else 0 := by
  induction h with
  | init => rfl
  | stepTry h ih =>
    rename_i s'
    by_cases hl : s'.locked <;> simp [vaultStep, hl] at ih ⊢ <;> simp [ih]
  | stepPoll t h ih =>
    rename_i s'
    by_cases hl : s'.locked <;> simp [vaultStep, hl] at ih ⊢ <;> simp [ih]
  | stepDrop h hg ih =>
    rename_i s'
    by_cases hl : s'.locked <;> simp [vaultStep, hl] at ih ⊢ <;> omega

end Popcorn

/-- Claim C1: for every vault and every interleaving of `try_lock` calls,
polls of `lock()` futures and guard drops, at most one `VaultAcquired`
guard exists at any time; an acquisition succeeds exactly when the
`locked` flag is false and sets it to true, the flag becomes false only
through a guard drop, and while a guard is outstanding every `try_lock`
returns busy and every poll parks the task and stays pending. -/
theorem claim_C1_vault_exclusion (s : Popcorn.VaultState) (t : Nat)
    (h : Popcorn.VaultReach s) :
    s.guards ≤ 1 ∧
    (s.locked = true ↔ s.guards = 1) ∧
    ((Popcorn.vaultStep s .tryLock).2 = .acquired ↔ s.locked = false) ∧
    ((Popcorn.vaultStep s .tryLock).2 = .acquired →
      (Popcorn.vaultStep s .tryLock).1.locked = true) ∧
    ((Popcorn.vaultStep s (.pollAcquire t)).2 = .acquired ↔ s.locked = false) ∧
    (s.guards = 1 →
      (Popcorn.vaultStep s .tryLock).2 = .busy ∧
      (Popcorn.vaultStep s (.pollAcquire t)).2 = .notReady ∧
      (Popcorn.vaultStep s (.pollAcquire t)).1.guards = 1) ∧
    (0 < s.guards → (Popcorn.vaultStep s .dropGuard).1.locked = false) := by
  have hg := Popcorn.vaultReach_guards_eq s h
  by_cases hl : s.locked <;>
    simp [hl, Popcorn.vaultStep] at hg ⊢ <;> simp [hg]

/-- Witness for C1: the state reached by a single successful `try_lock`
from a fresh vault is reachable, holds exactly one guard, and further
`try_lock` attempts are busy. -/
theorem claim_C1_vault_exclusion_witness :
    ({ locked := true, waiting := [], guards := 1 } : Popcorn.VaultState).guards ≤ 1 ∧
    (Popcorn.vaultStep { locked := true, waiting := [], guards := 1 } .tryLock).2 =
      .busy := by
  have hreach : Popcorn.VaultReach { locked := true, waiting := [], guards := 1 } := by
    have h := Popcorn.VaultReach.stepTry Popcorn.VaultReach.init
    simpa [Popcorn.vaultStep, Popcorn.vaultInit] using h
  have h := claim_C1_vault_exclusion _ 0 hreach
  exact ⟨h.1, (h.2.2.2.2.2.1 (by simp)).1⟩

namespace Popcorn

/-! ## Worker-pool events (`popcorn-core/src/platform/cpu/work.rs`)

`Event` wraps a spin-locked `EventInner { id, completed, worker_pool,
callbacks }`.  Callbacks are opaque boxed closures; we name them by `Nat`
tokens.  `WorkFn`s receive a `work::Result = Result<(), Error>` with
`Error::Custom(String)`.  Dispatch to the worker pool
(`WorkerPool::spawn_box_fn`) is modelled as the list of `(callback,
result)` work items the entry point pushes onto the queue. -/

/-- The `work::Result` type: `Result<(), work::Error>` with
`Error::Custom(String)`. -/
abbrev WkResult := Except String Unit

/-- The observable fields of `EventInner`: the `completed` flag and the
queued `callbacks` (named by tokens; `id` and the pool pointer play no
role in the dispatch logic). -/
structure EventState where
  completed : Bool
  callbacks : List Nat
  deriving Repr, DecidableEq

/-- A fresh event from `WorkerPool::create_event`: not completed, no
callbacks. -/
def createEvent : EventState := { completed := false, callbacks := [] }

/-- `Event::callback_box` (work.rs lines 104–117): under the spin lock, if
the event is completed the callback is spawned immediately on the pool
with `Ok(())`; otherwise it is pushed on the event's callback list.
Returns the new event state and the work items enqueued on the pool. -/
def callback_box (s : EventState) (f : Nat) : EventState × List (Nat × WkResult) :=
  if s.completed then
    (s, [(f, Except.ok ())])
  else
    ({ s with callbacks := s.callbacks ++ [f] }, [])

/-- `Event::complete` (work.rs lines 123–143): under the spin lock, if
already completed return `false` and do nothing; otherwise set the flag,
drain every queued callback onto the pool paired with a clone of
`result`, and return `true`.  Returns the new event state, the enqueued
work items (in callback registration order), and the boolean result. -/
def complete (s : EventState) (result : WkResult) :
    EventState × List (Nat × WkResult) × Bool :=
  if s.completed then
    (s, [], false)
  else
    ({ completed := true, callbacks := [] }, s.callbacks.map (fun f => (f, result)), true)

end Popcorn

/-- Claim C3 counterexample: complete a fresh event with the result
`Err(Custom("boom"))`, then register a callback.  The callback is enqueued
immediately, but with `Ok(())` — not with the completion result the claim
promises (pre-completion callbacks would have received `Err(Custom("boom"))`). -/
theorem claim_C3_counterexample :
    (Popcorn.callback_box (Popcorn.complete Popcorn.createEvent
        (Except.error "boom")).1 7).2 = [(7, Except.ok ())] ∧
    (Popcorn.complete { completed := false, callbacks := [7] }
        (Except.error "boom")).2.1 = [(7, Except.error "boom")] ∧
    (Except.ok () : Popcorn.WkResult) ≠ Except.error "boom" := by
  refine ⟨rfl, rfl, ?_⟩
  intro h
  exact Except.noConfusion h

/-- Claim C3 (amended): a callback registered after the event completed is
enqueued on the worker pool immediately and exactly once, with the event
state unchanged — but it is enqueued with `Ok(())` regardless of the
completion result, so it receives the value pre-completion callbacks saw
only when the event completed with `Ok(())`. -/
theorem claim_C3_callback_after_completion (s : Popcorn.EventState) (f : Nat)
    (h : s.completed = true) :
    Popcorn.callback_box s f = (s, [(f, Except.ok ())]) := by
  simp [Popcorn.callback_box, h]

/-- Witness for C3: the completed event with no queued callbacks enqueues a
freshly registered callback exactly once with `Ok(())`. -/
theorem claim_C3_callback_after_completion_witness :
    Popcorn.callback_box { completed := true, callbacks := [] } 7 =
      ({ completed := true, callbacks := [] }, [(7, Except.ok ())]) :=
  claim_C3_callback_after_completion { completed := true, callbacks := [] } 7 rfl

/-- Claim C4 counterexample: complete a fresh event with
`Err(Custom("x"))` (returns `true`), then call `complete` again with
`Ok(())` (returns `false`, changes nothing) — so far as claimed; but an
observer registered afterwards is enqueued with `Ok(())`, which is not the
first completion result `Err(Custom("x"))`, refuting "r remains the result
all observers see". -/
theorem claim_C4_counterexample :
    (Popcorn.complete Popcorn.createEvent (Except.error "x")).2.2 = true ∧
    (Popcorn.complete (Popcorn.complete Popcorn.createEvent
        (Except.error "x")).1 (Except.ok ())).2.2 = false ∧
    (Popcorn.callback_box (Popcorn.complete (Popcorn.complete Popcorn.createEvent
        (Except.error "x")).1 (Except.ok ())).1 3).2 = [(3, Except.ok ())] ∧
    (Except.ok () : Popcorn.WkResult) ≠ Except.error "x" := by
  refine ⟨rfl, rfl, rfl, ?_⟩
  intro h
  exact Except.noConfusion h

/-- Claim C4 (amended): completion succeeds at most once.  The first
`complete(r)` marks the event completed, enqueues every queued callback
exactly once with `r` (in registration order), and returns `true`; every
subsequent `complete`, with any result, changes nothing, enqueues nothing,
and returns `false`, so no observer ever receives a result from a
subsequent call — callbacks queued before completion see `r`, while
callbacks registered after completion are enqueued with `Ok(())`. -/
theorem claim_C4_single_completion (s : Popcorn.EventState)
    (r r' : Popcorn.WkResult) (h : s.completed = false) :
    Popcorn.complete s r =
      ({ completed := true, callbacks := [] },
        s.callbacks.map (fun f => (f, r)), true) ∧
    Popcorn.complete (Popcorn.complete s r).1 r' =
      ((Popcorn.complete s r).1, [], false) := by
  constructor
  · simp [Popcorn.complete, h]
  · simp [Popcorn.complete, h]

/-- Witness for C4: an event with one queued callback is completed once
with `Ok(())`; the callback is enqueued with that result, and a second
completion is a no-op returning `false`. -/
theorem claim_C4_single_completion_witness :
    Popcorn.complete { completed := false, callbacks := [5] } (Except.ok ()) =
      ({ completed := true, callbacks := [] }, [(5, Except.ok ())], true) ∧
    Popcorn.complete (Popcorn.complete { completed := false, callbacks := [5] }
        (Except.ok ())).1 (Except.error "y") =
      ((Popcorn.complete { completed := false, callbacks := [5] }
        (Except.ok ())).1, [], false) :=
  claim_C4_single_completion { completed := false, callbacks := [5] }
    (Except.ok ()) (Except.error "y") rfl

namespace Popcorn

/-! ## Buffers (`src/buffer.rs`)

`RawBuffer<T>` holds `size`, a `HashMap<BufferDevice, BufferMemory>` of
per-device copies, and `latest_device`.  `BufferDevice` and
`BufferMemory` each have the single `Native` variant.  The native
framework sources (`src/frameworks/native`) are not in the repository
snapshot, so the native device and its memory-copy primitives are
modelled from the specification (§3 "Memory copy", §4.5). -/

/-- Modelled from the spec: the native device of the missing
`frameworks::native` module; devices have a stable unique identifier and
are equality-comparable and hashable by identity (§3 "Device identity"). -/
structure NativeDevice where
  id : Nat
  deriving Repr, DecidableEq

/-- Modelled from the spec: the native memory of the missing
`frameworks::native` module — a device byte buffer with host-copy
primitives (§3 "Memory copy"); its contents are the element list. -/
structure NativeMemory (α : Type) where
  data : List α
  deriving Repr, DecidableEq

/-- The `BufferDevice` enum of buffer.rs (only the `Native` variant is
compiled in). -/
inductive BufferDevice where
  | native : NativeDevice → BufferDevice
  deriving Repr, DecidableEq

/-- The `BufferMemory` enum of buffer.rs (only the `Native` variant is
compiled in). -/
inductive BufferMemory (α : Type) where
  | native : NativeMemory α → BufferMemory α
  deriving Repr, DecidableEq

/-- The buffer-layer `Error` enum of buffer.rs; the native error payload
is modelled as its message string. -/
inductive Error where
  | native : String → Error
  | invalidLock : Error
  | invalidRawBuffer : Error
  | invalidDevice : Error
  | invalidBroadcast : Error
  deriving Repr, DecidableEq

/-- `RawBuffer<T>`: logical element count, per-device copies, and the
device holding the authoritative bytes. -/
structure RawBuffer (α : Type) where
  size : Nat
  copies : List (BufferDevice × BufferMemory α)
  latest_device : BufferDevice
  deriving Repr, DecidableEq

/-- Modelled from the spec: `native::Device::sync_from_vec(mem, vec)` of
the missing native framework — copies the host vector into the memory and
resolves with the (possibly moved) memory (§4.5); for the CPU this is a
memcpy.  `outcome` is how the returned future resolves: `none` for
success, `some e` for a native error `e`. -/
def nativeSyncFromVec {α : Type} (_m : NativeMemory α) (vec : List α)
    (outcome : Option String) : Except String (NativeMemory α) :=
  match outcome with
  | some e => Except.error e
  | none => Except.ok { data := vec }

/-- Modelled from the spec: `native::Device::sync_to_vec(mem)` of the
missing native framework — copies the bytes out into a fresh vector and
resolves with the pair `(mem, vec)` (§4.5). -/
def nativeSyncToVec {α : Type} (m : NativeMemory α)
    (outcome : Option String) : Except String (NativeMemory α × List α) :=
  match outcome with
  | some e => Except.error e
  | none => Except.ok (m, m.data)

/-- `RawBuffer::native_memory` (buffer.rs lines 129–137): look the device
up in `copies`; return a borrow of the stored memory, or
`Err(InvalidDevice)` when absent.  The function reads the buffer only. -/
def native_memory {α : Type} (buf : RawBuffer α) (dev : NativeDevice) :
    Except Error (NativeMemory α) :=
  match mapLookup (BufferDevice.native dev) buf.copies with
  | some (BufferMemory.native nm) => Except.ok nm
  | none => Except.error Error.invalidDevice

/-- `RawBuffer::native_memory_mut` (buffer.rs lines 140–148): identical
lookup via `get_mut`, returning the mutable borrow, or
`Err(InvalidDevice)` when absent.  The call itself modifies nothing. -/
def native_memory_mut {α : Type} (buf : RawBuffer α) (dev : NativeDevice) :
    Except Error (NativeMemory α) :=
  match mapLookup (BufferDevice.native dev) buf.copies with
  | some (BufferMemory.native nm) => Except.ok nm
  | none => Except.error Error.invalidDevice

/-- `LockedBuffer::sync_from_vec` (buffer.rs lines 156–176): remove the
`latest_device` copy from `copies`; if absent, fail with `InvalidDevice`;
otherwise run the native copy-in and, on success only, reinsert the
updated memory under the same device key.  The result pairs the future's
resolution with the raw buffer's final state (what the vault holds after
the guard drops); on a native failure the removed entry is never
reinserted. -/
def sync_from_vec {α : Type} (buf : RawBuffer α) (vec : List α)
    (outcome : Option String) : Except Error (RawBuffer α) × RawBuffer α :=
  let dev := buf.latest_device
  let removed : RawBuffer α := { buf with copies := mapRemove dev buf.copies }
  match mapLookup dev buf.copies with
  | some (BufferMemory.native m) =>
    match nativeSyncFromVec m vec outcome with
    | Except.error e => (Except.error (Error.native e), removed)
    | Except.ok m' =>
      let buf' : RawBuffer α :=
        { removed with copies := mapInsert dev (BufferMemory.native m') removed.copies }
      (Except.ok buf', buf')
  | none => (Except.error Error.invalidDevice, removed)

/-- `LockedBuffer::sync_to_vec` (buffer.rs lines 178–197): remove the
`latest_device` copy; if absent, fail with `InvalidDevice`; otherwise run
the native copy-out and, on success only, reinsert the memory under the
same device key and resolve with the
fresh host vector. -/
def sync_to_vec {α : Type} (buf : RawBuffer α)
    (outcome : Option String) : Except Error (List α) × RawBuffer α :=
  let dev := buf.latest_device
  let removed : RawBuffer α := { buf with copies := mapRemove dev buf.copies }
  match mapLookup dev buf.copies with
  | some (BufferMemory.native m) =>
    match nativeSyncToVec m outcome with
    | Except.error e => (Except.error (Error.native e), removed)
    | Except.ok (m', vec) =>
      let buf' : RawBuffer α :=
        { removed with copies := mapInsert dev (BufferMemory.native m') removed.copies }
      (Except.ok vec, buf')
  | none => (Except.error Error.invalidDevice, removed)

/-- `LockedBuffer::sync` (buffer.rs lines 199–211): match on
`latest_device` and the target; for the only compiled pair of variants
(`Native`, `Native`) the future resolves immediately with `Ok(self)` —
the buffer is returned unchanged. -/
def sync {α : Type} (buf : RawBuffer α) (d : BufferDevice) :
    Except Error (RawBuffer α) :=
  match buf.latest_device, d with
  | BufferDevice.native _, BufferDevice.native _ => Except.ok buf

end Popcorn

/-- A concrete one-element buffer whose single copy lives on native device 0. -/
def bufDev0 : Popcorn.RawBuffer Int :=
  { size := 1,
    copies := [(Popcorn.BufferDevice.native { id := 0 },
                Popcorn.BufferMemory.native { data := [42] })],
    latest_device := Popcorn.BufferDevice.native { id := 0 } }

/-- Claim C2 counterexample: syncing `bufDev0` to native device 1 resolves
successfully and immediately, yet device 1 is not a key of `copies` and
`latest_device` still names device 0 — no fresh copy was materialized. -/
theorem claim_C2_counterexample :
    Popcorn.sync bufDev0 (Popcorn.BufferDevice.native { id := 1 }) =
      Except.ok bufDev0 ∧
    Popcorn.mapLookup (Popcorn.BufferDevice.native { id := 1 }) bufDev0.copies =
      none ∧
    bufDev0.latest_device ≠ Popcorn.BufferDevice.native { id := 1 } := by
  refine ⟨rfl, rfl, ?_⟩
  decide

/-- Claim C2 (amended): `sync(d)` always resolves immediately with the
locked buffer unchanged — in particular, when `d` equals `latest_device`
it resolves immediately with no allocation and no copy, but for any other
device it also performs no work: it neither adds `d` to `copies` nor
updates `latest_device`. -/
theorem claim_C2_sync_is_noop {α : Type} (buf : Popcorn.RawBuffer α)
    (d : Popcorn.BufferDevice) :
    Popcorn.sync buf d = Except.ok buf := by
  unfold Popcorn.sync
  obtain ⟨n⟩ := buf.latest_device
  obtain ⟨m⟩ := d
  rfl

/-- Claim C5: for a buffer of size `n` whose `latest_device` copy exists,
`sync_from_vec(v)` with a host vector `v` of length `n` succeeds,
resolving with the locked buffer carrying the new copy, and a following
`sync_to_vec()` resolves with a vector equal to `v` (the round trip of
the repository's `test_native`).  The native copies are the modelled
memcpys, taken on their success path. -/
theorem claim_C5_round_trip {α : Type} (buf : Popcorn.RawBuffer α)
    (v : List α) (n : Nat) (m : Popcorn.BufferMemory α)
    (_hsize : buf.size = n) (_hlen : v.length = n)
    (hcopy : Popcorn.mapLookup buf.latest_device buf.copies = some m) :
    (Popcorn.sync_from_vec buf v none).1 =
      Except.ok (Popcorn.sync_from_vec buf v none).2 ∧
    (Popcorn.sync_to_vec (Popcorn.sync_from_vec buf v none).2 none).1 =
      Except.ok v := by
  obtain ⟨nm⟩ := m
  constructor
  · simp [Popcorn.sync_from_vec, hcopy, Popcorn.nativeSyncFromVec]
  · simp [Popcorn.sync_from_vec, hcopy, Popcorn.nativeSyncFromVec,
      Popcorn.sync_to_vec, Popcorn.nativeSyncToVec,
      Popcorn.mapLookup_mapInsert_self]

/-- Witness for C5: the round trip on a concrete size-4 buffer with the
vector of the repository's own `test_native` returns that vector. -/
theorem claim_C5_round_trip_witness :
    (Popcorn.sync_to_vec
      (Popcorn.sync_from_vec
        ({ size := 4,
           copies := [(Popcorn.BufferDevice.native { id := 0 },
                       Popcorn.BufferMemory.native { data := [0, 0, 0, 0] })],
           latest_device := Popcorn.BufferDevice.native { id := 0 } } :
          Popcorn.RawBuffer Int)
        ([23, 45, 54, 42] : List Int) none).2 none).1 =
      Except.ok ([23, 45, 54, 42] : List Int) :=
  (claim_C5_round_trip
    ({ size := 4,
       copies := [(Popcorn.BufferDevice.native { id := 0 },
                   Popcorn.BufferMemory.native { data := [0, 0, 0, 0] })],
       latest_device := Popcorn.BufferDevice.native { id := 0 } } :
      Popcorn.RawBuffer Int)
    [23, 45, 54, 42] 4
    (Popcorn.BufferMemory.native { data := [0, 0, 0, 0] })
    rfl rfl rfl).2

/-- Claim C8 counterexample: on `bufDev0` (one copy, on the latest
device) a `sync_from_vec` whose native copy fails with `"io"` resolves
with `Err(Native("io"))` and leaves the raw buffer with its `copies` map
empty: the `latest_device` entry was removed before the copy and never
reinserted, so the buffer is not in its prior state. -/
theorem claim_C8_counterexample :
    (Popcorn.sync_from_vec bufDev0 ([7] : List Int) (some "io")).1 =
      Except.error (Popcorn.Error.native "io") ∧
    (Popcorn.sync_from_vec bufDev0 ([7] : List Int) (some "io")).2.copies = [] ∧
    (Popcorn.sync_from_vec bufDev0 ([7] : List Int) (some "io")).2 ≠ bufDev0 := by
  refine ⟨rfl, rfl, ?_⟩
  decide

/-- Claim C8 (amended): the raw buffer is mutated *before* the native copy
completes, not only after success.  When the `latest_device` copy exists
and the native transfer fails, `sync_from_vec` and `sync_to_vec` resolve
with `Err(Native(e))` and leave the raw buffer equal to its prior state
with the `latest_device` entry removed from `copies` — the entry is
reinserted only on the success path. -/
theorem claim_C8_error_leaves_entry_removed {α : Type}
    (buf : Popcorn.RawBuffer α) (v : List α) (e : String)
    (m : Popcorn.BufferMemory α)
    (hcopy : Popcorn.mapLookup buf.latest_device buf.copies = some m) :
    Popcorn.sync_from_vec buf v (some e) =
      (Except.error (Popcorn.Error.native e),
        { buf with copies := Popcorn.mapRemove buf.latest_device buf.copies }) ∧
    Popcorn.sync_to_vec buf (some e) =
      (Except.error (Popcorn.Error.native e),
        { buf with copies := Popcorn.mapRemove buf.latest_device buf.copies }) ∧
    Popcorn.mapLookup buf.latest_device
      (Popcorn.sync_from_vec buf v (some e)).2.copies = none := by
  obtain ⟨nm⟩ := m
  refine ⟨?_, ?_, ?_⟩
  · simp [Popcorn.sync_from_vec, hcopy, Popcorn.nativeSyncFromVec]
  · simp [Popcorn.sync_to_vec, hcopy, Popcorn.nativeSyncToVec]
  · simp [Popcorn.sync_from_vec, hcopy, Popcorn.nativeSyncFromVec,
      Popcorn.mapLookup_mapRemove_self]

/-- Witness for C8: the amended statement evaluated on the concrete
buffer `bufDev0` with a failing native copy. -/
theorem claim_C8_error_leaves_entry_removed_witness :
    Popcorn.sync_from_vec bufDev0 ([7] : List Int) (some "io") =
      (Except.error (Popcorn.Error.native "io"),
        { bufDev0 with
            copies := Popcorn.mapRemove bufDev0.latest_device bufDev0.copies }) ∧
    Popcorn.sync_to_vec bufDev0 (some "io") =
      (Except.error (Popcorn.Error.native "io"),
        { bufDev0 with
            copies := Popcorn.mapRemove bufDev0.latest_device bufDev0.copies }) ∧
    Popcorn.mapLookup bufDev0.latest_device
      (Popcorn.sync_from_vec bufDev0 ([7] : List Int) (some "io")).2.copies =
        none :=
  claim_C8_error_leaves_entry_removed bufDev0 [7] "io"
    (Popcorn.BufferMemory.native { data := [42] }) rfl

/-- Claim C9: `native_memory(d)` returns the stored memory copy exactly
when `d` is a key of `copies`, and `Err(InvalidDevice)` exactly when it
is not; `native_memory_mut` behaves identically, and both are pure
lookups that leave the buffer untouched. -/
theorem claim_C9_native_memory_lookup {α : Type} (buf : Popcorn.RawBuffer α)
    (d : Popcorn.NativeDevice) :
    (∀ nm : Popcorn.NativeMemory α,
      Popcorn.native_memory buf d = Except.ok nm ↔
        Popcorn.mapLookup (Popcorn.BufferDevice.native d) buf.copies =
          some (Popcorn.BufferMemory.native nm)) ∧
    (Popcorn.native_memory buf d = Except.error Popcorn.Error.invalidDevice ↔
      Popcorn.mapLookup (Popcorn.BufferDevice.native d) buf.copies = none) ∧
    Popcorn.native_memory_mut buf d = Popcorn.native_memory buf d := by
  refine ⟨?_, ?_, ?_⟩
  · intro nm
    cases h : Popcorn.mapLookup (Popcorn.BufferDevice.native d) buf.copies with
    | none => simp [Popcorn.native_memory, h]
    | some bm =>
      obtain ⟨nm'⟩ := bm
      simp [Popcorn.native_memory, h]
  · cases h : Popcorn.mapLookup (Popcorn.BufferDevice.native d) buf.copies with
    | none => simp [Popcorn.native_memory, h]
    | some bm =>
      obtain ⟨nm'⟩ := bm
      simp [Popcorn.native_memory, h]
  · cases h : Popcorn.mapLookup (Popcorn.BufferDevice.native d) buf.copies with
    | none => simp [Popcorn.native_memory, Popcorn.native_memory_mut, h]
    | some bm =>
      obtain ⟨nm'⟩ := bm
      simp [Popcorn.native_memory, Popcorn.native_memory_mut, h]

namespace Popcorn

/-! ## Broadcasted dot kernel
(`popcorn-blas/src/frameworks/native/core_ops/dot.rs`)

The kernel calls `broadcast::try_new_broadcast(shape_a, a, shape_b, b, 1)`;
the `broadcast` module is referenced by
`popcorn-blas/src/frameworks/native/mod.rs` but its source is not in the
repository snapshot, so it is modelled from the specification (§4.7):
broadcast the leading dimensions NumPy-style, leave the trailing
contraction axis unbroadcast, and iterate the aligned pairs of trailing
vectors in row-major order.  Everything after the `try_new_broadcast`
call — popping the trailing dimension, allocating the output with
`bshape.iter().sum()` elements, and the element-wise write loop — is
translated directly from `dot.rs` lines 48–64. -/

/-- Modelled from the spec: all multi-indices of a shape, in row-major
order (first dimension slowest). -/
def indicesOf : List Nat → List (List Nat)
  | [] => [[]]
  | d :: rest =>
    (List.range d).flatMap (fun i => (indicesOf rest).map (fun idx => i :: idx))

/-- Modelled from the spec: broadcast of two reversed dimension lists
(aligned from the trailing end; a missing dimension counts as
compatible); for each pair either both equal or one is `1`, otherwise the
shapes are incompatible. -/
def bcastRev : List Nat → List Nat → Option (List Nat)
  | [], ys => some ys
  | x :: xs, [] => some (x :: xs)
  | x :: xs, y :: ys =>
    if x = y then (bcastRev xs ys).map (fun r => x :: r)
    else if x = 1 then (bcastRev xs ys).map (fun r => y :: r)
    else if y = 1 then (bcastRev xs ys).map (fun r => x :: r)
    else none

/-- Modelled from the spec: NumPy-style broadcast of two leading-dimension
lists (align trailing dims; the `1`-side is replicated; mismatched
non-unit dims fail). -/
def broadcastDims (xs ys : List Nat) : Option (List Nat) :=
  (bcastRev xs.reverse ys.reverse).map List.reverse

/-- Modelled from the spec: pad a shape on the left with `1`s up to a rank. -/
def padShape (rank : Nat) (s : List Nat) : List Nat :=
  List.replicate (rank - s.length) 1 ++ s

/-- Modelled from the spec: project a broadcast multi-index onto a source
shape — a dimension of extent `1` is replicated, so its index is `0`. -/
def projIdx (dims idx : List Nat) : List Nat :=
  (dims.zip idx).map (fun p => if p.1 = 1 then 0 else p.2)

/-- Row-major offset of a multi-index within a shape. -/
def offsetOf (dims idx : List Nat) : Nat :=
  (dims.zip idx).foldl (fun acc p => acc * p.1 + p.2) 0

/-- The trailing vector of length `k` starting at trailing-vector index
`off` of a flat row-major array. -/
def sliceAt {α : Type} (a : List α) (off k : Nat) : List α :=
  (a.drop (off * k)).take k

/-- Modelled from the spec: `broadcast::try_new_broadcast(shape_a, a,
shape_b, b, 1)` of the missing `broadcast` module.  With `skip = 1` the
trailing contraction dimension is left unbroadcast (the aligned trailing
vectors share one length `k`), the leading dimensions are broadcast
NumPy-style, and the two iterators yield, for every multi-index of the
broadcast leading shape in row-major order, the aligned pair of trailing
vectors.  Returns the broadcast shape (trailing dimension included, as
`bshape` is later popped by the caller) and the iterated pairs; `none` is
the `InvalidBroadcast` failure. -/
def try_new_broadcast {α : Type} (shape_a : List Nat) (a : List α)
    (shape_b : List Nat) (b : List α) :
    Option (List Nat × List (List α × List α)) :=
  match shape_a.getLast?, shape_b.getLast? with
  | some ka, some kb =>
    if ka = kb then
      match broadcastDims shape_a.dropLast shape_b.dropLast with
      | some bc =>
        let pa := padShape bc.length shape_a.dropLast
        let pb := padShape bc.length shape_b.dropLast
        let pairs := (indicesOf bc).map (fun idx =>
          (sliceAt a (offsetOf pa (projIdx pa idx)) ka,
           sliceAt b (offsetOf pb (projIdx pb idx)) kb))
        some (bc ++ [ka], pairs)
      | none => none
    else none
  | _, _ => none

/-- The `Dot` primitive of dot.rs (`cblas_sdot` for `f32`): the sum of
the element-wise products. -/
def dotList {α : Type} [Mul α] [Add α] [Zero α] (u v : List α) : α :=
  (List.zipWith (fun x y => x * y) u v).sum

/-- `bcast_dot` (dot.rs lines 23–70): run `try_new_broadcast` (failure
surfaces as `InvalidBroadcast`), pop the trailing contraction dimension
off `bshape`, allocate the output data buffer with
`bshape.iter().sum()` elements — the sum, as written in the source at
line 51 — build `shape_c` from the popped `bshape`, and write the dot of
each aligned pair of trailing vectors into the output, the write loop
stopping at whichever of the result iterator and the output buffer runs
out first.  Cells of the fresh allocation never written are modelled as
zero.  Returns `(shape_c, c)`. -/
def bcast_dot {α : Type} [Mul α] [Add α] [Zero α] (shape_a : List Nat)
    (a : List α) (shape_b : List Nat) (b : List α) :
    Except Error (List Nat × List α) :=
  match try_new_broadcast shape_a a shape_b b with
  | none => Except.error Error.invalidBroadcast
  | some (bshape, pairs) =>
    let rshape := bshape.dropLast
    let cap := rshape.sum
    let results := pairs.map (fun p => dotList p.1 p.2)
    let c := results.take cap ++ List.replicate (cap - results.length) (0 : α)
    Except.ok (rshape, c)

end Popcorn

/-- Claim C6: the broadcasted dot of `A` of shape `[2,3]` with data
`[[1,2,3],[4,5,6]]` and `B` of shape `[1,3]` with data `[[2,2,2]]`
succeeds with result shape `[2]` and result values `[12, 30]`. -/
theorem claim_C6_bcast_dot_values :
    Popcorn.bcast_dot [2, 3] ([1, 2, 3, 4, 5, 6] : List Int) [1, 3]
      ([2, 2, 2] : List Int) = Except.ok ([2], [12, 30]) := by
  rfl

/-- Claim C7 (code bug): for input shapes `[2,3,2]` and `[1,3,2]` the
result shape is `[2,3]` as claimed, but the output data buffer is
allocated with `bshape.iter().sum() = 2 + 3 = 5` elements instead of the
product `6`, so of the six dot results `[3,7,11,15,19,23]` the last is
silently dropped: the kernel returns only `[3,7,11,15,19]`. -/
theorem claim_C7_allocation_sum_not_prod :
    Popcorn.bcast_dot [2, 3, 2]
        ([1, 2, 3, 4, 5, 6, 7, 8, 9, 10, 11, 12] : List Int) [1, 3, 2]
        ([1, 1, 1, 1, 1, 1] : List Int) =
      Except.ok ([2, 3], [3, 7, 11, 15, 19]) ∧
    ([2, 3] : List Nat).sum = 5 ∧
    ([2, 3] : List Nat).prod = 6 ∧
    (5 : Nat) ≠ 6 := by
  refine ⟨rfl, rfl, rfl, by decide⟩

namespace Popcorn

/-! ## CPU device allocation
(`popcorn-core/src/platform/cpu/device.rs`) -/

/-- Modelled from the source call site: `CpuMemory::new()` of the missing
`popcorn-core/src/platform/cpu/memory.rs` — the constructor takes no
arguments, so it denotes one fixed value. -/
inductive CpuMemory where
  | new : CpuMemory
  deriving Repr, DecidableEq

/-- `CpuDevice::allocate` (device.rs lines 48–56): create a fresh event,
complete it immediately with `Ok(())`, and return `CpuMemory::new()`
paired with the event.  Both arguments are ignored.  The result records
the memory, the event's state as returned, the work items the completion
enqueued, and the boolean the `complete` call produced. -/
def allocate (_size _element_size : Nat) :
    CpuMemory × EventState × List (Nat × WkResult) × Bool :=
  let event := createEvent
  let completion := complete event (Except.ok ())
  (CpuMemory.new, completion.1, completion.2.1, completion.2.2)

end Popcorn

/-- Claim C10: for every requested size and element size,
`CpuDevice::allocate` returns an event that is already completed at the
moment `allocate` returns — its `complete(Ok(()))` call succeeded — and
the returned memory is the same fixed `CpuMemory::new()` value whatever
the arguments: the whole return value is independent of `size` and
`element_size`. -/
theorem claim_C10_allocate_completed_constant
    (s1 e1 s2 e2 : Nat) :
    (Popcorn.allocate s1 e1).2.1.completed = true ∧
    (Popcorn.allocate s1 e1).2.2.2 = true ∧
    (Popcorn.allocate s1 e1).1 = Popcorn.CpuMemory.new ∧
    Popcorn.allocate s1 e1 = Popcorn.allocate s2 e2 := by
  exact ⟨rfl, rfl, rfl, rfl⟩
